import Mathlib

/-!
Verification development for the MeshOps Adaptive Multi-Signal Retrain
Controller (AMRC): a shallow embedding of the controller core found in
`Backend/RetrainService/meshops/{amrc.py, metrics.py}` and
`Backend/testrun/{amrc.py, state_store.py}`, together with theorems about
the embedded operations.

Modelling conventions:
* Python floats are modelled as exact rationals (`ℚ`) for the state-update
  and fatigue arithmetic, and as real numbers (`ℝ`) where the source uses
  the transcendental `np.log` (entropy) and for the decision pipeline that
  consumes it.  `np.clip(x, lo, hi)` is `min (max x lo) hi`.
* File I/O performed by the source is made explicit: the contents a call
  would read from disk (reference-stats file, parsed CSV columns, parsed
  probability matrix, file size, the wall clock `time.time()`, and the
  outcome of each `np.random.normal` draw) are fields of an environment
  record passed to the embedded function.
* Fallible operations return `Except`; the exception a Python call would
  raise becomes an explicit error value.
-/

namespace MeshOps

/-- np.clip(x, lo, hi): clamp `x` into `[lo, hi]` (as `min (max x lo) hi`). -/
def clip {α : Type} [LinearOrderedField α] (x lo hi : α) : α :=
  min (max x lo) hi

/-- AMRCConfig dataclass from `meshops/amrc.py` (identical in
`testrun/amrc.py`): decision scalers, adaptation step, cooldown window and
the optional cost conversion factor. -/
structure AMRCConfig (α : Type) where
  alpha : α
  beta : α
  gamma : α
  delta : α
  lr : α
  min_gap_minutes : α
  cost_per_min : α
deriving Repr

/-- Default field values of the `AMRCConfig` dataclass:
alpha=beta=gamma=delta=1.0, lr=0.05, min_gap_minutes=30.0, cost_per_min=0.0. -/
def AMRCConfig.defaults {α : Type} [LinearOrderedField α] : AMRCConfig α :=
  ⟨1, 1, 1, 1, 1 / 20, 30, 0⟩

/-- EngineState: the typed view of the persisted state object
`{"w":[w1,w2,w3,w4], "theta":t, "last_retrain_ts":ts}` that
`AMRC.decide` / `AMRC.adapt` extract via `st["w"]`, `st["theta"]`,
`st["last_retrain_ts"]`. -/
structure EngineState (α : Type) where
  w1 : α
  w2 : α
  w3 : α
  w4 : α
  theta : α
  last_retrain_ts : α
deriving Repr, DecidableEq

/-- The `_DEFAULT` bootstrap state written by `StateStore.__init__` when no
state file exists: `{"w":[0.4,0.3,0.2,0.1], "theta":0.5, "last_retrain_ts":0.0}`. -/
def defaultState {α : Type} [LinearOrderedField α] : EngineState α :=
  ⟨2 / 5, 3 / 10, 1 / 5, 1 / 10, 1 / 2, 0⟩

/-- AMRC._fatigue from `meshops/amrc.py` lines 37-42 (identical arithmetic in
`testrun/amrc.py` lines 101-106).  `now` is the value `time.time()` returns
during the call.  Source:
if last_ts <= 0: return 0.0;
minutes = (time.time() - last_ts)/60.0;
f = max(0.0, min_gap_minutes - minutes) / min_gap_minutes;
return clip(f, 0.0, 1.0). -/
def fatigue {α : Type} [LinearOrderedField α]
    (cfg : AMRCConfig α) (now last_ts : α) : α :=
  if last_ts ≤ 0 then 0
  else
    clip (max 0 (cfg.min_gap_minutes - (now - last_ts) / 60) / cfg.min_gap_minutes) 0 1

/-- AMRC.adapt from `meshops/amrc.py` lines 94-113 (identical arithmetic in
`testrun/amrc.py` lines 192-216).  The final
`self.state.update(w=..., theta=...)` merges only the keys `w` and `theta`
into the persisted object, which is why `last_retrain_ts` is carried over
unchanged.  Source:
err = clip(outcome_error, 0, 1); cst = clip(outcome_cost_minutes/30, 0, 1);
w[i] = clip(w[i] + lr*err, 0, 2) for i in {0,1};
w[i] = clip(w[i] + lr*cst, 0, 2) for i in {2,3};
theta = clip(theta + lr*(0.5 - 0.5*err - 0.5*cst), 0.1, 1.5). -/
def adapt {α : Type} [LinearOrderedField α]
    (cfg : AMRCConfig α) (st : EngineState α)
    (outcome_error outcome_cost_minutes : α) : EngineState α :=
  let err := clip outcome_error 0 1
  let cst := clip (outcome_cost_minutes / 30) 0 1
  { w1 := clip (st.w1 + cfg.lr * err) 0 2
    w2 := clip (st.w2 + cfg.lr * err) 0 2
    w3 := clip (st.w3 + cfg.lr * cst) 0 2
    w4 := clip (st.w4 + cfg.lr * cst) 0 2
    theta := clip (st.theta + cfg.lr * (1 / 2 - 1 / 2 * err - 1 / 2 * cst)) (1 / 10) (3 / 2)
    last_retrain_ts := st.last_retrain_ts }

/-- Invariant of the persisted parameters: all four weights in `[0, 2]` and
the threshold in `[0.1, 1.5]`. -/
def InRange {α : Type} [LinearOrderedField α] (st : EngineState α) : Prop :=
  0 ≤ st.w1 ∧ st.w1 ≤ 2 ∧ 0 ≤ st.w2 ∧ st.w2 ≤ 2 ∧
  0 ≤ st.w3 ∧ st.w3 ≤ 2 ∧ 0 ≤ st.w4 ∧ st.w4 ≤ 2 ∧
  1 / 10 ≤ st.theta ∧ st.theta ≤ 3 / 2

instance {α : Type} [LinearOrderedField α] (st : EngineState α) :
    Decidable (InRange st) := by
  unfold InRange; infer_instance

/-- InputError taxonomy for `decide()`: the Python exceptions that loading
the reference-stats file can surface — FileNotFoundError from `open` and
json.JSONDecodeError from `json.load` (`metrics.py` lines 33-35). -/
inductive InputError where
  | fileNotFound : InputError
  | jsonDecode : InputError
deriving DecidableEq

/-- Per-column reference statistics `{"mean": f, "std": f, "q": [...]}` as
consumed by `drift_wasserstein`. -/
structure ColStats where
  mean : ℝ
  std : ℝ
  q : List ℝ

/-- Parsed content of the reference-statistics file: the `"columns"` object
as an association list (the `created_ts` field is never read by the
controller and is omitted). -/
structure RefStats where
  columns : List (String × ColStats)

/-- Observable states of the reference-stats path when `decide()` runs:
absent, present but not valid JSON, or parsed (schema-conforming) content. -/
inductive RefStatsFile where
  | missing : RefStatsFile
  | malformed : RefStatsFile
  | parsed (rs : RefStats) : RefStatsFile

/-- load_reference_stats (`metrics.py` lines 33-35): `open` + `json.load`
with no fallback — a missing file raises FileNotFoundError and invalid JSON
raises JSONDecodeError, both propagating to the caller. -/
def load_reference_stats : RefStatsFile → Except InputError RefStats
  | .missing => .error .fileNotFound
  | .malformed => .error .jsonDecode
  | .parsed rs => .ok rs

/-- Arithmetic mean of a list (np.mean); the empty list maps to 0, matching
the source fallback's `sum(u)/len(u) if u else 0.0`. -/
noncomputable def listMean (xs : List ℝ) : ℝ := xs.sum / xs.length

/-- wasserstein_distance fallback from `metrics.py` lines 17-27 (used when
scipy is unavailable): the absolute difference of the sample means. -/
noncomputable def wasserstein_distance (u v : List ℝ) : ℝ := |listMean u - listMean v|

/-- Shape guard of entropy_from_probs (`metrics.py` line 132): the input
must be a genuine 2-dimensional matrix (non-empty, rectangular) with at
least 2 class columns; anything else is malformed. -/
def malformedProbs : List (List ℝ) → Bool
  | [] => true
  | r :: rest => if r.length < 2 then true else rest.any fun s => s.length ≠ r.length

noncomputable section

/-- entropy_from_probs (`metrics.py` lines 126-140): per-row Shannon entropy
`-Σ p·ln(p + 1e-12)`, averaged over rows, normalized by `ln(numClasses)` and
clamped to `[0,1]`; malformed input returns 0. -/
def entropy_from_probs (probs : List (List ℝ)) : ℝ :=
  if malformedProbs probs then 0
  else
    clip ((probs.map fun row =>
        -((row.map fun p => p * Real.log (p + 1 / 10 ^ 12)).sum)).sum / probs.length
      / Real.log probs.headI.length) 0 1

/-- drift_wasserstein (`metrics.py` lines 97-124): for each new column whose
name appears in the reference stats with `std > 0` and which has
`k = min(len, 5000) > 1` values, compare the first `k` observed values with
a size-`k` synthetic draw from Normal(mean, std); average the per-column
distances and cap at 10.  `sample name` is the vector that
`np.random.normal(mu, sd, size=k)` returns for that column during the call
(the call is unseeded, so it is an input of the run, not of the files). -/
def drift_wasserstein (rs : RefStats) (new_cols : List (String × List ℝ))
    (sample : String → List ℝ) : ℝ :=
  let scores := new_cols.filterMap fun nc =>
    match rs.columns.lookup nc.1 with
    | none => none
    | some cs =>
      if cs.std ≤ 0 then none
      else
        let k := min nc.2.length 5000
        if k ≤ 1 then none
        else some (wasserstein_distance ((sample nc.1).take k) (nc.2.take k))
  if scores.length = 0 then 0 else clip (scores.sum / scores.length) 0 10

/-- estimate_cost_minutes (`metrics.py` lines 142-145):
`max(dataset_mb / max(base_mb_per_min, 1e-3), 0.1)`. -/
def estimate_cost_minutes (dataset_mb base_mb_per_min : ℝ) : ℝ :=
  max (dataset_mb / max base_mb_per_min (1 / 10 ^ 3)) (1 / 10)

/-- Everything a `decide()` call reads from outside the persisted state:
the reference-stats path content, the numeric columns parsed from the
new-data CSV (`load_csv_numeric_columns`, which returns `{}` on any read
failure), the parsed probability matrix (present only when a probs path was
given and exists; already reshaped to 2-d as in `amrc.py` lines 62-65), the
on-disk size of the new-data file in MB, the wall clock `time.time()`, and
the synthetic Normal draws consumed by `drift_wasserstein`. -/
structure DecideEnv where
  refFile : RefStatsFile
  newCols : List (String × List ℝ)
  probs : Option (List (List ℝ))
  sizeMb : ℝ
  now : ℝ
  sample : String → List ℝ

/-- The dictionary `decide()` returns (`amrc.py` lines 85-92): normalized
signals, raw values, the weight/theta snapshot used, the score and the
retrain flag. -/
structure DecisionRecord where
  drift : ℝ
  entropy : ℝ
  cost : ℝ
  fatigue : ℝ
  raw_drift : ℝ
  data_mb : ℝ
  cost_min : ℝ
  w1 : ℝ
  w2 : ℝ
  w3 : ℝ
  w4 : ℝ
  theta : ℝ
  score : ℝ
  retrain : Prop

/-- The successful branch of AMRC.decide (`meshops/amrc.py` lines 50-92)
once the reference stats have been loaded: compute the four signals, the
signed dot product and the threshold comparison. -/
def decideOk (cfg : AMRCConfig ℝ) (st : EngineState ℝ) (rs : RefStats)
    (env : DecideEnv) : DecisionRecord :=
  let s1_raw := drift_wasserstein rs env.newCols env.sample
  let s1 := clip (s1_raw / 5) 0 1
  let s2 := match env.probs with
    | none => 0
    | some m => entropy_from_probs m
  let mb := env.sizeMb
  let cost_min := estimate_cost_minutes mb 200
  let s3pre := if cfg.cost_per_min ≤ 0 then cost_min else cost_min * cfg.cost_per_min
  let s3 := clip (s3pre / 30) 0 1
  let s4 := fatigue cfg env.now st.last_retrain_ts
  let score := st.w1 * (cfg.alpha * s1) + st.w2 * (cfg.beta * s2) +
    st.w3 * (-(cfg.gamma * s3)) + st.w4 * (-(cfg.delta * s4))
  { drift := s1, entropy := s2, cost := s3, fatigue := s4,
    raw_drift := s1_raw, data_mb := mb, cost_min := cost_min,
    w1 := st.w1, w2 := st.w2, w3 := st.w3, w4 := st.w4,
    theta := st.theta, score := score, retrain := score > st.theta }

/-- AMRC.decide (`meshops/amrc.py` lines 44-92).  It loads the state (the
`st` argument is the value `self.state.get()` returned), loads the
reference stats — letting a FileNotFoundError or JSONDecodeError propagate —
and computes the decision record.  The second component of the result is
the persisted state after the call: `decide` never invokes `state.update`,
so it is the state it started from. -/
def AMRC.decide (cfg : AMRCConfig ℝ) (st : EngineState ℝ) (env : DecideEnv) :
    Except InputError (DecisionRecord × EngineState ℝ) :=
  match load_reference_stats env.refFile with
  | .error e => .error e
  | .ok rs => .ok (decideOk cfg st rs env, st)

/-- The constant fallback record of `testrun/amrc.py` lines 180-189. -/
def fallbackRecord : DecisionRecord :=
  { drift := 0, entropy := 0, cost := 0, fatigue := 0,
    raw_drift := 0, data_mb := 0, cost_min := 0,
    w1 := 2 / 5, w2 := 3 / 10, w3 := 1 / 5, w4 := 1 / 10,
    theta := 1 / 2, score := 0, retrain := False }

/-- AMRC.decide of the `testrun/amrc.py` variant (lines 109-177), modelled
with numpy and the state store available.  Line 125 replaces a missing
reference-stats file with the fabricated `{"columns": {}}`; a present but
unparseable file raises inside `load_reference_stats` and is caught by the
surrounding `except`, which returns the constant fallback record.  The
happy-path arithmetic is identical to the meshops variant (`decideOk`). -/
def AMRC.decideTestrun (cfg : AMRCConfig ℝ) (st : EngineState ℝ)
    (env : DecideEnv) : DecisionRecord :=
  match env.refFile with
  | .malformed => fallbackRecord
  | .missing => decideOk cfg st ⟨[]⟩ env
  | .parsed rs => decideOk cfg st rs env

end

/-- Minimal JSON value model for the contents of the persisted state file. -/
inductive Json where
  | null : Json
  | bool (b : Bool) : Json
  | num (q : ℚ) : Json
  | str (s : String) : Json
  | arr (elems : List Json) : Json
  | obj (fields : List (String × Json)) : Json

/-- Observable states of the state-store backing file at read time. -/
inductive StateFile where
  | missing : StateFile
  | malformed : StateFile
  | parsed (j : Json) : StateFile

/-- StateIOError taxonomy for `StateStore.get`: FileNotFoundError from
`open` (the constructor re-creates a missing file, so `get` only sees this
if the file vanished afterwards) and JSONDecodeError from `json.load`. -/
inductive StateIOError where
  | fileNotFound : StateIOError
  | jsonDecode : StateIOError
deriving DecidableEq

/-- Failures `StateStore.update` can raise: a read failure from `get`, or
the AttributeError that `st.update(kwargs)` raises when the parsed state is
not a JSON object. -/
inductive UpdateFailure where
  | readFailed (e : StateIOError) : UpdateFailure
  | notAnObject : UpdateFailure
deriving DecidableEq

namespace StateStore

/-- StateStore._read / StateStore.get (`state_store.py` lines 24-26 and
44-46): `open` + `json.load` under the in-process lock.  `json.load` only
parses; it performs no schema validation, so any parsed JSON value is
returned as-is. -/
def get : StateFile → Except StateIOError Json
  | .missing => .error .fileNotFound
  | .malformed => .error .jsonDecode
  | .parsed j => .ok j

/-- Python dict assignment `d[k] = v` on an insertion-ordered dict:
replace in place if the key exists, else append. -/
def setKey : List (String × Json) → String → Json → List (String × Json)
  | [], k, v => [(k, v)]
  | (k0, v0) :: rest, k, v =>
    if k0 = k then (k0, v) :: rest else (k0, v0) :: setKey rest k v

/-- `st.update(kwargs)` in StateStore.update (`state_store.py` line 51). -/
def mergeKv (st kwargs : List (String × Json)) : List (String × Json) :=
  kwargs.foldl (fun acc kv => setKey acc kv.1 kv.2) st

/-- What the rename-retry loop of `StateStore._write` did: how many
`shutil.move` attempts ran, how long the 100 ms backoffs slept in total,
whether the target file was replaced, and the value the Python function
returns to its caller (always None — there is no Applied/Skipped result). -/
structure WriteLog where
  attempts : Nat
  sleptMs : Nat
  applied : Bool
  retVal : Unit
deriving DecidableEq

/-- The `for attempt in range(5)` retry loop of `_write` (`state_store.py`
lines 33-42).  `ok i` says whether the i-th `shutil.move` succeeds (false
means it raised PermissionError, after which the code sleeps 100 ms and
retries); when all attempts fail, the for-else branch prints a warning and
the update is dropped without raising. -/
def renameLoop (ok : Nat → Bool) : Nat → Nat → WriteLog
  | i, 0 => ⟨i, 100 * i, false, ()⟩
  | i, r + 1 =>
    if ok i then ⟨i + 1, 100 * i, true, ()⟩
    else renameLoop ok (i + 1) r

/-- StateStore._write (`state_store.py` lines 28-42): dump `obj` to the
temp file (never observable at `self.path`), then run the rename-retry
loop.  On success the path atomically holds `obj`; after 5 consecutive
PermissionErrors the old content stays in place. -/
def write (file : StateFile) (obj : Json) (ok : Nat → Bool) :
    StateFile × WriteLog :=
  let log := renameLoop ok 0 5
  (if log.applied then .parsed obj else file, log)

/-- StateStore.update (`state_store.py` lines 48-52): under the reentrant
lock, read the current state, merge the supplied fields, write the merged
object.  A read failure propagates; `_write` itself never raises. -/
def update (file : StateFile) (kwargs : List (String × Json))
    (ok : Nat → Bool) : Except UpdateFailure (StateFile × WriteLog) :=
  match get file with
  | .error e => .error (.readFailed e)
  | .ok (.obj kvs) => .ok (write file (.obj (mergeKv kvs kwargs)) ok)
  | .ok _ => .error .notAnObject

end StateStore

/-- Json shape test used by the spec-schema checker below. -/
def Json.isNum : Json → Bool
  | .num _ => true
  | _ => false

/-- Modelled from the spec: the persisted-state schema of spec section 6 —
a JSON object with exactly the three fields `w` (an array of exactly 4
numbers), `theta` (a number) and `last_retrain_ts` (a number).  The source
`StateStore.get` performs no such validation; this definition exists only
to state that fact. -/
def specValidEngineState (j : Json) : Bool :=
  match j with
  | .obj kvs =>
    (kvs.length == 3) &&
    (match kvs.lookup "w" with
     | some (.arr ws) => (ws.length == 4) && ws.all Json.isNum
     | _ => false) &&
    (match kvs.lookup "theta" with
     | some t => t.isNum
     | none => false) &&
    (match kvs.lookup "last_retrain_ts" with
     | some t => t.isNum
     | none => false)
  | _ => false

/-- A schema-invalid persisted object: `w` has length 1 and `theta` is a
string.  Valid JSON, so `json.load` accepts it. -/
def badStateJson : Json :=
  .obj [("w", .arr [.num 1]), ("theta", .str "oops"), ("last_retrain_ts", .num 0)]

/-- The default persisted object, as JSON. -/
def stateObj0 : Json :=
  .obj [("w", .arr [.num (2/5), .num (3/10), .num (1/5), .num (1/10)]),
        ("theta", .num (1/2)), ("last_retrain_ts", .num 0)]

/-- Rename outcome sequence in which every `shutil.move` attempt raises
PermissionError. -/
def okNever : Nat → Bool := fun _ => false

/-- Rename outcome sequence in which the first `shutil.move` succeeds. -/
def okAlways : Nat → Bool := fun _ => true

/-- Concrete empty reference stats used by witnesses. -/
def rsW : RefStats := ⟨[]⟩

/-- Concrete decide environment used by witnesses: parsed empty reference
stats, no comparable columns, no probability file, an empty new-data file,
clock at 0. -/
noncomputable def envW : DecideEnv :=
  ⟨.parsed rsW, [], none, 0, 0, fun _ => []⟩

/-- Reference stats with one column `x` of mean 0 and std 1. -/
noncomputable def rsX : RefStats := ⟨[("x", ⟨0, 1, []⟩)]⟩

/-- Environment whose new-data column `x` is `[0, 0]` and whose synthetic
Normal draw happens to be `[0, 0]`. -/
noncomputable def envSampleA : DecideEnv :=
  ⟨.parsed rsX, [("x", [0, 0])], none, 0, 0, fun _ => [0, 0]⟩

/-- The same files and clock as `envSampleA`, but the unseeded Normal draw
comes out as `[10, 10]` instead. -/
noncomputable def envSampleB : DecideEnv :=
  { envSampleA with sample := fun _ => [10, 10] }

/-- Environment whose reference-stats path does not exist. -/
noncomputable def envMissing : DecideEnv :=
  ⟨.missing, [], none, 0, 0, fun _ => []⟩

lemma clip_le {α : Type} [LinearOrderedField α] (x lo hi : α) :
    clip x lo hi ≤ hi := min_le_right _ _

lemma le_clip {α : Type} [LinearOrderedField α] (x lo hi : α) (h : lo ≤ hi) :
    lo ≤ clip x lo hi := le_min (le_max_right _ _) h

lemma clip_mem {α : Type} [LinearOrderedField α] (x lo hi : α) (h : lo ≤ hi) :
    lo ≤ clip x lo hi ∧ clip x lo hi ≤ hi :=
  ⟨le_clip x lo hi h, clip_le x lo hi⟩

/-- One `adapt` step always lands in range, whatever state it started from:
every written field passes through `clip`. -/
lemma adapt_inRange {α : Type} [LinearOrderedField α]
    (cfg : AMRCConfig α) (st : EngineState α) (e c : α) :
    InRange (adapt cfg st e c) := by
  refine ⟨?_, ?_, ?_, ?_, ?_, ?_, ?_, ?_, ?_, ?_⟩ <;>
    first
      | exact le_clip _ _ _ (by norm_num)
      | exact clip_le _ _ _

lemma clip_of_mem {α : Type} [LinearOrderedField α] {x lo hi : α}
    (h1 : lo ≤ x) (h2 : x ≤ hi) : clip x lo hi = x := by
  unfold clip; rw [max_eq_left h1, min_eq_left h2]

lemma clip_idem {α : Type} [LinearOrderedField α] (x lo hi : α) (h : lo ≤ hi) :
    clip (clip x lo hi) lo hi = clip x lo hi :=
  clip_of_mem (le_clip x lo hi h) (clip_le x lo hi)

/-- Dividing a `[0, 30]` clamp by 30 is the same as clamping the quotient to
`[0, 1]` (this is how out-of-range cost feedback reduces to in-range feedback). -/
lemma clip_div_30 {α : Type} [LinearOrderedField α] (c : α) :
    clip c 0 30 / 30 = clip (c / 30) 0 1 := by
  unfold clip
  rw [← min_div_div_right (by norm_num : (0:α) ≤ 30) (max c 0) 30,
    ← max_div_div_right (by norm_num : (0:α) ≤ 30) c 0]
  norm_num

/-- C1: for every sequence of `adapt` calls starting from a state whose
weights lie in `[0,2]^4` and whose theta lies in `[0.1,1.5]`, after each
`adapt(outcomeError, outcomeCostMinutes)` every weight still lies in `[0,2]`
and theta still lies in `[0.1,1.5]` (every prefix of the sequence is covered
because the outcome list is universally quantified). -/
theorem adapt_sequence_invariant (cfg : AMRCConfig ℚ) (st : EngineState ℚ)
    (h : InRange st) (outcomes : List (ℚ × ℚ)) :
    InRange (outcomes.foldl (fun s oc => adapt cfg s oc.1 oc.2) st) := by
  induction outcomes generalizing st with
  | nil => exact h
  | cons o l ih => exact ih (adapt cfg st o.1 o.2) (adapt_inRange cfg st o.1 o.2)

/-- Witness for C1: the default state is in range, and stays in range after
the outcome sequence [(0.3, 10), (2, -5)]. -/
theorem adapt_sequence_invariant_witness :
    InRange (defaultState : EngineState ℚ) ∧
    InRange ([((3:ℚ)/10, (10:ℚ)), (2, -5)].foldl
      (fun s oc => adapt AMRCConfig.defaults s oc.1 oc.2) defaultState) :=
  ⟨by norm_num [InRange, defaultState],
   adapt_sequence_invariant AMRCConfig.defaults defaultState
     (by norm_num [InRange, defaultState]) [((3:ℚ)/10, (10:ℚ)), (2, -5)]⟩

/-- C4: for outcomeError in `[0,1]`, `adapt` writes back exactly the
spec's update: w1 and w2 incremented by `lr*outcomeError` then clamped to
`[0,2]`; w3 and w4 incremented by `lr*costNorm` then clamped, where
`costNorm = clip(outcomeCostMinutes/30, 0, 1)`; theta replaced by
`clip(theta + lr*(0.5 - 0.5*outcomeError - 0.5*costNorm), 0.1, 1.5)`; and
`last_retrain_ts` is unchanged (the source's `state.update` merges only the
keys `w` and `theta`). -/
theorem adapt_update_rule (cfg : AMRCConfig ℚ) (st : EngineState ℚ) (e c : ℚ)
    (h0 : 0 ≤ e) (h1 : e ≤ 1) :
    adapt cfg st e c =
      { w1 := clip (st.w1 + cfg.lr * e) 0 2
        w2 := clip (st.w2 + cfg.lr * e) 0 2
        w3 := clip (st.w3 + cfg.lr * clip (c / 30) 0 1) 0 2
        w4 := clip (st.w4 + cfg.lr * clip (c / 30) 0 1) 0 2
        theta := clip (st.theta + cfg.lr * (1 / 2 - 1 / 2 * e - 1 / 2 * clip (c / 30) 0 1))
          (1 / 10) (3 / 2)
        last_retrain_ts := st.last_retrain_ts } := by
  have he : clip e 0 1 = e := clip_of_mem h0 h1
  simp only [adapt, he]

/-- Witness for C4 at outcomeError = 1/2, outcomeCostMinutes = 45. -/
theorem adapt_update_rule_witness :
    (0 ≤ (1:ℚ)/2 ∧ (1:ℚ)/2 ≤ 1) ∧
    adapt AMRCConfig.defaults (defaultState : EngineState ℚ) ((1:ℚ)/2) 45 =
      { w1 := clip (defaultState.w1 + AMRCConfig.defaults.lr * ((1:ℚ)/2)) 0 2
        w2 := clip (defaultState.w2 + AMRCConfig.defaults.lr * ((1:ℚ)/2)) 0 2
        w3 := clip (defaultState.w3 + AMRCConfig.defaults.lr * clip ((45:ℚ) / 30) 0 1) 0 2
        w4 := clip (defaultState.w4 + AMRCConfig.defaults.lr * clip ((45:ℚ) / 30) 0 1) 0 2
        theta := clip (defaultState.theta +
            AMRCConfig.defaults.lr * (1 / 2 - 1 / 2 * ((1:ℚ)/2) - 1 / 2 * clip ((45:ℚ) / 30) 0 1))
          (1 / 10) (3 / 2)
        last_retrain_ts := (defaultState : EngineState ℚ).last_retrain_ts } :=
  ⟨by norm_num,
   adapt_update_rule AMRCConfig.defaults defaultState ((1:ℚ)/2) 45
     (by norm_num) (by norm_num)⟩

/-- C10: `adapt` is total in its outcome arguments beyond the stated domain:
an arbitrary outcomeError (below 0 or above 1) and an arbitrary (possibly
negative) outcomeCostMinutes act exactly like their nearest in-range values
`clip(e, 0, 1)` and `clip(c, 0, 30)`, and the resulting state always stays
inside the clamped ranges. -/
theorem adapt_total_clipped (cfg : AMRCConfig ℚ) (st : EngineState ℚ) (e c : ℚ) :
    adapt cfg st e c = adapt cfg st (clip e 0 1) (clip c 0 30) ∧
    InRange (adapt cfg st e c) := by
  refine ⟨?_, adapt_inRange cfg st e c⟩
  simp only [adapt, clip_idem e 0 1 (by norm_num), clip_div_30,
    clip_idem (c / 30) 0 1 (by norm_num)]

lemma clip_mono {α : Type} [LinearOrderedField α] {a b lo hi : α} (h : a ≤ b) :
    clip a lo hi ≤ clip b lo hi :=
  min_le_min (max_le_max h (le_refl lo)) (le_refl hi)

/-- With a retrain on record (`0 < last_ts`) and a positive cooldown window,
the source `max`-then-`clip` arithmetic of `_fatigue` coincides with a single
clamp of `(min_gap - elapsed) / min_gap` into `[0, 1]`. -/
lemma fatigue_pos_eq (cfg : AMRCConfig ℚ) (now last_ts : ℚ)
    (hgap : 0 < cfg.min_gap_minutes) (h : 0 < last_ts) :
    fatigue cfg now last_ts =
      clip ((cfg.min_gap_minutes - (now - last_ts) / 60) / cfg.min_gap_minutes) 0 1 := by
  have hg : (0:ℚ) ≤ cfg.min_gap_minutes := le_of_lt hgap
  rw [fatigue, if_neg (not_le.mpr h)]
  unfold clip
  rw [← max_div_div_right hg 0 (cfg.min_gap_minutes - (now - last_ts) / 60), zero_div,
    max_eq_left (le_max_left 0 ((cfg.min_gap_minutes - (now - last_ts) / 60) / cfg.min_gap_minutes)),
    max_comm 0 ((cfg.min_gap_minutes - (now - last_ts) / 60) / cfg.min_gap_minutes)]

/-- C8: the fatigue signal is exactly 0 whenever `last_ts ≤ 0`; otherwise,
with `elapsed = (now - last_ts)/60`, it equals
`clip((min_gap - elapsed)/min_gap, 0, 1)`, so it is 1 at `elapsed = 0`
(immediately after `mark_retrained` sets `last_ts` to the positive current
time), monotonically non-increasing as the clock advances, and exactly 0 at
and beyond `min_gap_minutes` of elapsed time. -/
theorem fatigue_spec (cfg : AMRCConfig ℚ) (now last_ts : ℚ)
    (hgap : 0 < cfg.min_gap_minutes) :
    (last_ts ≤ 0 → fatigue cfg now last_ts = 0) ∧
    (0 < last_ts →
      fatigue cfg now last_ts =
        clip ((cfg.min_gap_minutes - (now - last_ts) / 60) / cfg.min_gap_minutes) 0 1) ∧
    (0 < last_ts → now = last_ts → fatigue cfg now last_ts = 1) ∧
    (∀ t1 t2 : ℚ, t1 ≤ t2 → fatigue cfg t2 last_ts ≤ fatigue cfg t1 last_ts) ∧
    (0 < last_ts → cfg.min_gap_minutes ≤ (now - last_ts) / 60 →
      fatigue cfg now last_ts = 0) := by
  refine ⟨?_, ?_, ?_, ?_, ?_⟩
  · intro h; rw [fatigue, if_pos h]
  · intro h; exact fatigue_pos_eq cfg now last_ts hgap h
  · intro h hnow
    rw [fatigue_pos_eq cfg now last_ts hgap h, hnow, sub_self, zero_div, sub_zero,
      div_self (ne_of_gt hgap)]
    exact clip_of_mem zero_le_one le_rfl
  · intro t1 t2 ht
    by_cases hl : last_ts ≤ 0
    · rw [fatigue, if_pos hl, fatigue, if_pos hl]
    · have hl2 : 0 < last_ts := not_le.mp hl
      rw [fatigue_pos_eq cfg t1 last_ts hgap hl2, fatigue_pos_eq cfg t2 last_ts hgap hl2]
      refine clip_mono ((div_le_div_iff_of_pos_right hgap).mpr ?_)
      have : (t1 - last_ts) / 60 ≤ (t2 - last_ts) / 60 := by
        exact (div_le_div_iff_of_pos_right (by norm_num : (0:ℚ) < 60)).mpr (by linarith)
      linarith
  · intro h helapsed
    rw [fatigue, if_neg (not_le.mpr h),
      max_eq_left (by linarith : cfg.min_gap_minutes - (now - last_ts) / 60 ≤ 0), zero_div]
    exact clip_of_mem le_rfl zero_le_one

/-- Witness for C8: the default config has a positive cooldown window, and
the fatigue properties hold at `now = last_ts = 100`. -/
theorem fatigue_spec_witness :
    0 < (AMRCConfig.defaults : AMRCConfig ℚ).min_gap_minutes ∧
    (((100:ℚ) ≤ 0 → fatigue (AMRCConfig.defaults : AMRCConfig ℚ) 100 100 = 0) ∧
    (0 < (100:ℚ) →
      fatigue (AMRCConfig.defaults : AMRCConfig ℚ) 100 100 =
        clip (((AMRCConfig.defaults : AMRCConfig ℚ).min_gap_minutes - ((100:ℚ) - 100) / 60) /
          (AMRCConfig.defaults : AMRCConfig ℚ).min_gap_minutes) 0 1) ∧
    (0 < (100:ℚ) → (100:ℚ) = 100 → fatigue (AMRCConfig.defaults : AMRCConfig ℚ) 100 100 = 1) ∧
    (∀ t1 t2 : ℚ, t1 ≤ t2 →
      fatigue (AMRCConfig.defaults : AMRCConfig ℚ) t2 100 ≤ fatigue (AMRCConfig.defaults : AMRCConfig ℚ) t1 100) ∧
    (0 < (100:ℚ) →
      (AMRCConfig.defaults : AMRCConfig ℚ).min_gap_minutes ≤ ((100:ℚ) - 100) / 60 →
      fatigue (AMRCConfig.defaults : AMRCConfig ℚ) 100 100 = 0)) :=
  ⟨by norm_num [AMRCConfig.defaults],
   fatigue_spec AMRCConfig.defaults 100 100 (by norm_num [AMRCConfig.defaults])⟩

/-- C3: `decide()` is pure with respect to the engine state — it reads the
persisted state but performs no write (the state after the call equals the
state before), the record snapshots the weights and theta it used, its
score is the dot product of the weights with the signed scaled signal
vector, and the retrain flag holds exactly when the score strictly exceeds
theta — so a score equal to theta yields no retrain. -/
theorem decide_pure_and_score (cfg : AMRCConfig ℝ) (st : EngineState ℝ)
    (env : DecideEnv) (r : DecisionRecord) (st1 : EngineState ℝ)
    (h : AMRC.decide cfg st env = .ok (r, st1)) :
    st1 = st ∧
    r.w1 = st.w1 ∧ r.w2 = st.w2 ∧ r.w3 = st.w3 ∧ r.w4 = st.w4 ∧
    r.theta = st.theta ∧
    r.score = r.w1 * (cfg.alpha * r.drift) + r.w2 * (cfg.beta * r.entropy) +
      r.w3 * (-(cfg.gamma * r.cost)) + r.w4 * (-(cfg.delta * r.fatigue)) ∧
    (r.retrain ↔ r.score > st.theta) ∧
    (r.score = st.theta → ¬ r.retrain) := by
  rcases henv : env.refFile with _ | _ | rs
  · simp [AMRC.decide, load_reference_stats, henv] at h
  · simp [AMRC.decide, load_reference_stats, henv] at h
  · simp only [AMRC.decide, load_reference_stats, henv, Except.ok.injEq,
      Prod.mk.injEq] at h
    obtain ⟨h1, h2⟩ := h
    subst h1
    subst h2
    refine ⟨rfl, rfl, rfl, rfl, rfl, rfl, rfl, Iff.rfl, ?_⟩
    intro heq
    show ¬ ((decideOk cfg st rs env).score > st.theta)
    rw [heq]
    exact lt_irrefl st.theta

/-- The concrete decision record produced by the witness environment. -/
noncomputable def recW : DecisionRecord :=
  decideOk AMRCConfig.defaults defaultState rsW envW

/-- Witness for C3: the concrete run on `envW` succeeds and has all the
stated properties. -/
theorem decide_pure_and_score_witness :
    AMRC.decide (AMRCConfig.defaults : AMRCConfig ℝ) defaultState envW =
      .ok (recW, defaultState) ∧
    ((defaultState : EngineState ℝ) = defaultState ∧
     recW.w1 = (defaultState : EngineState ℝ).w1 ∧
     recW.w2 = (defaultState : EngineState ℝ).w2 ∧
     recW.w3 = (defaultState : EngineState ℝ).w3 ∧
     recW.w4 = (defaultState : EngineState ℝ).w4 ∧
     recW.theta = (defaultState : EngineState ℝ).theta ∧
     recW.score = recW.w1 * ((AMRCConfig.defaults : AMRCConfig ℝ).alpha * recW.drift) +
       recW.w2 * ((AMRCConfig.defaults : AMRCConfig ℝ).beta * recW.entropy) +
       recW.w3 * (-((AMRCConfig.defaults : AMRCConfig ℝ).gamma * recW.cost)) +
       recW.w4 * (-((AMRCConfig.defaults : AMRCConfig ℝ).delta * recW.fatigue)) ∧
     (recW.retrain ↔ recW.score > (defaultState : EngineState ℝ).theta) ∧
     (recW.score = (defaultState : EngineState ℝ).theta → ¬ recW.retrain)) :=
  ⟨rfl, decide_pure_and_score AMRCConfig.defaults defaultState envW recW
    defaultState rfl⟩

/-- C7 (amended): `decide()` is deterministic and stateless once its actual
inputs are fixed — for a fixed environment (files, file size, clock value
and the outcome of the unseeded Normal draws), re-running `decide` from the
state the first call left behind reproduces the identical record and state.
The original claim fails because the draws and the clock are not functions
of the state and the input files; see the counterexample. -/
theorem decide_deterministic (cfg : AMRCConfig ℝ) (st : EngineState ℝ)
    (env : DecideEnv) (r : DecisionRecord) (st1 : EngineState ℝ)
    (h : AMRC.decide cfg st env = .ok (r, st1)) :
    AMRC.decide cfg st1 env = .ok (r, st1) := by
  rcases henv : env.refFile with _ | _ | rs
  · simp [AMRC.decide, load_reference_stats, henv] at h
  · simp [AMRC.decide, load_reference_stats, henv] at h
  · simp only [AMRC.decide, load_reference_stats, henv, Except.ok.injEq,
      Prod.mk.injEq] at h
    obtain ⟨h1, h2⟩ := h
    subst h1
    subst h2
    simp [AMRC.decide, load_reference_stats, henv]

/-- Witness for C7 (amended): the concrete run on `envW` satisfies the
hypothesis, and re-running reproduces it. -/
theorem decide_deterministic_witness :
    AMRC.decide (AMRCConfig.defaults : AMRCConfig ℝ) defaultState envW =
      .ok (recW, defaultState) ∧
    AMRC.decide (AMRCConfig.defaults : AMRCConfig ℝ) defaultState envW =
      .ok (recW, defaultState) :=
  ⟨rfl, decide_deterministic AMRCConfig.defaults defaultState envW recW
    defaultState rfl⟩

lemma decideOk_drift (cfg : AMRCConfig ℝ) (st : EngineState ℝ) (rs : RefStats)
    (env : DecideEnv) :
    (decideOk cfg st rs env).drift =
      clip (drift_wasserstein rs env.newCols env.sample / 5) 0 1 := rfl

/-- Evaluation of the drift signal when the synthetic draw happens to equal
the observed column: distance 0. -/
lemma driftA_eq :
    drift_wasserstein rsX [("x", [0, 0])] (fun _ => [(0:ℝ), 0]) = 0 := by
  simp [drift_wasserstein, rsX, wasserstein_distance, listMean, clip]

/-- Evaluation of the drift signal when the synthetic draw comes out as
`[10, 10]` against the observed column `[0, 0]`: distance 10. -/
lemma driftB_eq :
    drift_wasserstein rsX [("x", [0, 0])] (fun _ => [(10:ℝ), 10]) = 10 := by
  simp [drift_wasserstein, rsX, wasserstein_distance, listMean, clip]

/-- Counterexample for C7 as stated: two `decide()` calls with identical
state and identical input files (same reference stats, new columns,
probability matrix, file size, clock) differ because the unseeded
`np.random.normal` draw inside `drift_wasserstein` came out differently:
the drift signal is 0 in one run and 1 in the other. -/
theorem decide_not_idempotent_counterexample :
    envSampleA.refFile = envSampleB.refFile ∧
    envSampleA.newCols = envSampleB.newCols ∧
    envSampleA.probs = envSampleB.probs ∧
    envSampleA.sizeMb = envSampleB.sizeMb ∧
    envSampleA.now = envSampleB.now ∧
    AMRC.decide (AMRCConfig.defaults : AMRCConfig ℝ) defaultState envSampleA ≠
      AMRC.decide (AMRCConfig.defaults : AMRCConfig ℝ) defaultState envSampleB := by
  refine ⟨rfl, rfl, rfl, rfl, rfl, ?_⟩
  intro h
  have hA : AMRC.decide (AMRCConfig.defaults : AMRCConfig ℝ) defaultState envSampleA =
      .ok (decideOk AMRCConfig.defaults defaultState rsX envSampleA, defaultState) := rfl
  have hB : AMRC.decide (AMRCConfig.defaults : AMRCConfig ℝ) defaultState envSampleB =
      .ok (decideOk AMRCConfig.defaults defaultState rsX envSampleB, defaultState) := rfl
  rw [hA, hB] at h
  have hrec := congrArg DecisionRecord.drift (Prod.ext_iff.mp (Except.ok.inj h)).1
  rw [decideOk_drift, decideOk_drift] at hrec
  have hdA : drift_wasserstein rsX envSampleA.newCols envSampleA.sample = 0 := driftA_eq
  have hdB : drift_wasserstein rsX envSampleB.newCols envSampleB.sample = 10 := driftB_eq
  rw [hdA, hdB] at hrec
  norm_num [clip] at hrec

/-- C6 (amended, provable half): in the RetrainService (meshops) variant, a
missing or unparseable reference-stats file makes `decide()` surface the
load error verbatim; no `DecisionRecord` is produced. -/
theorem decide_refstats_fatal (cfg : AMRCConfig ℝ) (st : EngineState ℝ)
    (env : DecideEnv) :
    AMRC.decide cfg st { env with refFile := .missing } = .error .fileNotFound ∧
    AMRC.decide cfg st { env with refFile := .malformed } = .error .jsonDecode :=
  ⟨rfl, rfl⟩

/-- Counterexample for C6 as stated: the `testrun/amrc.py` variant of
`decide()`, on a missing reference-stats file, fabricates the empty column
set `{"columns": {}}` and returns a normal `DecisionRecord` (score
-1/1500, theta 0.5, retrain false) instead of failing with an InputError. -/
theorem testrun_decide_fabricates :
    (AMRC.decideTestrun (AMRCConfig.defaults : AMRCConfig ℝ) defaultState envMissing).score =
      -(1 / 1500) ∧
    (AMRC.decideTestrun (AMRCConfig.defaults : AMRCConfig ℝ) defaultState envMissing).theta =
      1 / 2 ∧
    ¬ (AMRC.decideTestrun (AMRCConfig.defaults : AMRCConfig ℝ) defaultState envMissing).retrain := by
  have hsc : (AMRC.decideTestrun (AMRCConfig.defaults : AMRCConfig ℝ) defaultState envMissing).score =
      -(1 / 1500) := by
    show (decideOk (AMRCConfig.defaults : AMRCConfig ℝ) defaultState ⟨[]⟩ envMissing).score =
      -(1 / 1500)
    simp only [decideOk, drift_wasserstein, estimate_cost_minutes, fatigue,
      envMissing, defaultState, AMRCConfig.defaults]
    norm_num [clip, max_def, min_def]
  refine ⟨hsc, rfl, ?_⟩
  intro hr
  rw [show (AMRC.decideTestrun (AMRCConfig.defaults : AMRCConfig ℝ) defaultState envMissing).retrain =
      ((AMRC.decideTestrun (AMRCConfig.defaults : AMRCConfig ℝ) defaultState envMissing).score >
        (1 : ℝ) / 2) from rfl] at hr
  rw [hsc] at hr
  norm_num at hr

lemma clip_eq_lo {α : Type} [LinearOrderedField α] {x lo hi : α}
    (h1 : x ≤ lo) (h2 : lo ≤ hi) : clip x lo hi = lo := by
  unfold clip; rw [max_eq_right h1, min_eq_left h2]

lemma log2_pos : (0:ℝ) < Real.log 2 := Real.log_pos (by norm_num)

lemma logeps_pos : (0:ℝ) < Real.log (1 + 2 / 10 ^ 12) :=
  Real.log_pos (by norm_num)

lemma logeps_le : Real.log (1 + 2 / 10 ^ 12) ≤ 2 / 10 ^ 12 := by
  have h := Real.log_le_sub_one_of_pos (show (0:ℝ) < 1 + 2 / 10 ^ 12 by norm_num)
  linarith

/-- The deviation of the normalized uniform-row entropy from 1 is tiny but
strictly positive: `log(1+2e-12)/log 2 < 1e-11`. -/
lemma logeps_ratio_lt : Real.log (1 + 2 / 10 ^ 12) / Real.log 2 < 1 / 10 ^ 11 := by
  rw [div_lt_iff₀ log2_pos]
  have h1 := Real.log_two_gt_d9
  have h2 := logeps_le
  linarith

/-- Closed form of `entropy_from_probs` on a single well-formed two-class
row. -/
lemma entropy_single_row (a b : ℝ) :
    entropy_from_probs [[a, b]] =
      clip (-(a * Real.log (a + 1 / 10 ^ 12) + b * Real.log (b + 1 / 10 ^ 12)) /
        Real.log 2) 0 1 := by
  unfold entropy_from_probs
  rw [if_neg (by simp [malformedProbs])]
  simp [List.headI]

/-- The exact value of the entropy signal on the uniform two-class row. -/
lemma entropy_half_val :
    entropy_from_probs [[(1:ℝ)/2, 1/2]] =
      1 - Real.log (1 + 2 / 10 ^ 12) / Real.log 2 := by
  rw [entropy_single_row]
  have hL : Real.log ((1:ℝ)/2 + 1 / 10 ^ 12) =
      Real.log (1 + 2 / 10 ^ 12) - Real.log 2 := by
    rw [show (1:ℝ)/2 + 1 / 10 ^ 12 = (1 + 2 / 10 ^ 12) / 2 by norm_num]
    exact Real.log_div (by norm_num) (by norm_num)
  have h2ne : Real.log 2 ≠ 0 := ne_of_gt log2_pos
  have hX : -((1:ℝ)/2 * Real.log ((1:ℝ)/2 + 1 / 10 ^ 12) +
      (1:ℝ)/2 * Real.log ((1:ℝ)/2 + 1 / 10 ^ 12)) / Real.log 2 =
      1 - Real.log (1 + 2 / 10 ^ 12) / Real.log 2 := by
    rw [hL]
    field_simp
  rw [hX]
  have hr1 : Real.log (1 + 2 / 10 ^ 12) / Real.log 2 < 1 :=
    lt_trans logeps_ratio_lt (by norm_num)
  have hr0 : 0 < Real.log (1 + 2 / 10 ^ 12) / Real.log 2 :=
    div_pos logeps_pos log2_pos
  exact clip_of_mem (by linarith) (by linarith)

/-- The entropy signal on the fully confident row `[1, 0]` is exactly 0:
the pre-clip value `-log(1+1e-12)/log 2` is negative and the clamp floors
it at 0. -/
lemma entropy_one_zero : entropy_from_probs [[(1:ℝ), 0]] = 0 := by
  rw [entropy_single_row]
  have h1 : 0 < Real.log (1 + 1 / 10 ^ 12) := Real.log_pos (by norm_num)
  have h3 : -((1:ℝ) * Real.log ((1:ℝ) + 1 / 10 ^ 12) +
      0 * Real.log ((0:ℝ) + 1 / 10 ^ 12)) ≤ 0 := by
    have : Real.log ((1:ℝ) + 1 / 10 ^ 12) = Real.log (1 + 1 / 10 ^ 12) := by norm_num
    linarith [this ▸ h1]
  exact clip_eq_lo (div_nonpos_iff.mpr (Or.inr ⟨h3, log2_pos.le⟩)) zero_le_one

/-- Malformed probability input (wrong shape or fewer than 2 classes)
yields 0, straight from the guard. -/
lemma entropy_malformed (m : List (List ℝ)) (h : malformedProbs m = true) :
    entropy_from_probs m = 0 := by
  unfold entropy_from_probs
  rw [if_pos h]

/-- C9 (amended): on the single-row matrix `[[0.5, 0.5]]` the entropy
signal equals `1 - log(1+2e-12)/log 2`, a value strictly between
`1 - 1e-11` and 1 — not exactly 1.0, because of the `1e-12` epsilon added
inside the logarithm; on `[[1.0, 0.0]]` it returns exactly 0.0 (the
negative pre-clip value is clamped up to 0); every malformed input (not a
2-d matrix, or fewer than 2 classes) returns 0. -/
theorem entropy_spec :
    entropy_from_probs [[(1:ℝ)/2, 1/2]] =
      1 - Real.log (1 + 2 / 10 ^ 12) / Real.log 2 ∧
    1 - 1 / 10 ^ 11 < entropy_from_probs [[(1:ℝ)/2, 1/2]] ∧
    entropy_from_probs [[(1:ℝ)/2, 1/2]] < 1 ∧
    entropy_from_probs [[(1:ℝ), 0]] = 0 ∧
    ∀ m : List (List ℝ), malformedProbs m = true → entropy_from_probs m = 0 := by
  refine ⟨entropy_half_val, ?_, ?_, entropy_one_zero, entropy_malformed⟩
  · rw [entropy_half_val]
    have := logeps_ratio_lt
    linarith
  · rw [entropy_half_val]
    have := div_pos logeps_pos log2_pos
    linarith

/-- Witness for C9: a concrete malformed input (a single one-class row)
returns 0 via the theorem. -/
theorem entropy_spec_witness :
    malformedProbs [[(1:ℝ)]] = true ∧ entropy_from_probs [[(1:ℝ)]] = 0 :=
  ⟨rfl, entropy_spec.2.2.2.2 [[(1:ℝ)]] rfl⟩

/-- Counterexample for C9 as stated: the entropy signal on `[[0.5, 0.5]]`
is not exactly 1.0 — the `1e-12` epsilon inside `log(p + eps)` pushes the
normalized value strictly below 1. -/
theorem entropy_uniform_ne_one :
    entropy_from_probs [[(1:ℝ)/2, 1/2]] ≠ 1 := by
  rw [entropy_half_val]
  have h0 : 0 < Real.log (1 + 2 / 10 ^ 12) / Real.log 2 :=
    div_pos logeps_pos log2_pos
  intro h
  linarith

lemma renameLoop_attempts_le (ok : Nat → Bool) :
    ∀ r i, (StateStore.renameLoop ok i r).attempts ≤ i + r := by
  intro r
  induction r with
  | zero => intro i; simp [StateStore.renameLoop]
  | succ n ih =>
    intro i
    by_cases h : ok i
    · simp [StateStore.renameLoop, h]
    · simp [StateStore.renameLoop, h]
      have := ih (i + 1)
      omega

lemma renameLoop_applied_iff (ok : Nat → Bool) :
    ∀ r i, (StateStore.renameLoop ok i r).applied = true ↔
      ∃ j, i ≤ j ∧ j < i + r ∧ ok j = true := by
  intro r
  induction r with
  | zero =>
    intro i
    simp only [StateStore.renameLoop]
    constructor
    · intro h
      exact absurd h (by simp)
    · rintro ⟨j, h1, h2, _⟩
      omega
  | succ n ih =>
    intro i
    by_cases h : ok i
    · simp only [StateStore.renameLoop, if_pos h]
      constructor
      · intro _
        exact ⟨i, le_rfl, by omega, h⟩
      · intro _
        trivial
    · simp only [StateStore.renameLoop, if_neg h]
      rw [ih (i + 1)]
      constructor
      · rintro ⟨j, h1, h2, h3⟩
        exact ⟨j, by omega, by omega, h3⟩
      · rintro ⟨j, h1, h2, h3⟩
        rcases Nat.lt_or_ge j (i + 1) with hj | hj
        · have hij : j = i := by omega
          subst hij
          exact absurd h3 h
        · exact ⟨j, hj, by omega, h3⟩

lemma renameLoop_slept (ok : Nat → Bool) :
    ∀ r i, (StateStore.renameLoop ok i r).sleptMs =
      100 * ((StateStore.renameLoop ok i r).attempts -
        (if (StateStore.renameLoop ok i r).applied then 1 else 0)) := by
  intro r
  induction r with
  | zero => intro i; simp [StateStore.renameLoop]
  | succ n ih =>
    intro i
    by_cases h : ok i
    · simp [StateStore.renameLoop, h]
    · simp only [StateStore.renameLoop, if_neg h]
      exact ih (i + 1)

/-- C2 (amended): `StateStore._write` retries the atomic rename at most 5
times, sleeping 100 ms after each PermissionError; it succeeds and
replaces the file exactly when one of the 5 attempts succeeds, otherwise
the old file stays in place and the update is dropped without raising —
but the Python function returns None either way (only a log line is
emitted), and `update` on a readable object file returns the write result
without signalling Applied/Skipped to the caller. -/
theorem update_retry_bounded (file : StateFile) (obj : Json)
    (kvs kwargs : List (String × Json)) (ok : Nat → Bool) :
    (StateStore.write file obj ok).2.attempts ≤ 5 ∧
    ((StateStore.write file obj ok).2.applied = true ↔
      ∃ i, i < 5 ∧ ok i = true) ∧
    (StateStore.write file obj ok).1 =
      (if (StateStore.write file obj ok).2.applied then StateFile.parsed obj
       else file) ∧
    (StateStore.write file obj ok).2.sleptMs =
      100 * ((StateStore.write file obj ok).2.attempts -
        (if (StateStore.write file obj ok).2.applied then 1 else 0)) ∧
    (StateStore.write file obj ok).2.retVal = () ∧
    StateStore.update (.parsed (.obj kvs)) kwargs ok =
      .ok (StateStore.write (.parsed (.obj kvs))
        (.obj (StateStore.mergeKv kvs kwargs)) ok) := by
  refine ⟨renameLoop_attempts_le ok 5 0, ?_, rfl, renameLoop_slept ok 5 0, rfl, rfl⟩
  rw [show (StateStore.write file obj ok).2 = StateStore.renameLoop ok 0 5 from rfl,
    renameLoop_applied_iff ok 5 0]
  constructor
  · rintro ⟨j, _, h2, h3⟩
    exact ⟨j, by omega, h3⟩
  · rintro ⟨j, h1, h2⟩
    exact ⟨j, by omega, by omega, h2⟩

/-- Counterexample for C2 as stated: when every rename attempt raises
PermissionError, `update` still returns normally with the old file in
place (attempts 5, 500 ms slept, not applied), and when the first rename
succeeds it returns the merged file — in both cases the Python return
value (`retVal`, i.e. None) is identical, so no `Applied | Skipped`
outcome is returned to the caller. -/
theorem update_outcome_not_observable :
    StateStore.update (.parsed stateObj0) [("theta", Json.num 1)] okNever =
      .ok (.parsed stateObj0, ⟨5, 500, false, ()⟩) ∧
    StateStore.update (.parsed stateObj0) [("theta", Json.num 1)] okAlways =
      .ok (.parsed (.obj
        [("w", .arr [.num (2/5), .num (3/10), .num (1/5), .num (1/10)]),
         ("theta", .num 1), ("last_retrain_ts", .num 0)]), ⟨1, 0, true, ()⟩) ∧
    (StateStore.renameLoop okNever 0 5).retVal =
      (StateStore.renameLoop okAlways 0 5).retVal :=
  ⟨rfl, rfl, rfl⟩

/-- C5 (amended): `StateStore.get` fails only when the backing file is
missing (FileNotFoundError) or not valid JSON (JSONDecodeError); it
performs no schema validation, so any parsed JSON value — wrong field
count, wrong field types included — is returned unchanged as the state. -/
theorem stateStore_get_no_validation :
    StateStore.get .missing = .error .fileNotFound ∧
    StateStore.get .malformed = .error .jsonDecode ∧
    ∀ j : Json, StateStore.get (.parsed j) = .ok j :=
  ⟨rfl, rfl, fun _ => rfl⟩

/-- Counterexample for C5 as stated: a persisted object whose `w` array has
length 1 and whose `theta` is a string fails the spec section 6 schema,
yet `get` returns it as the engine state instead of failing with a
StateIOError. -/
theorem get_returns_invalid_schema :
    StateStore.get (.parsed badStateJson) = .ok badStateJson ∧
    specValidEngineState badStateJson = false :=
  ⟨rfl, rfl⟩

end MeshOps
